import Mathlib

/-!
Verification development for the FinanceWeb arbitrage-ledger backend.

The Python source is shallowly embedded over exact rational arithmetic:
USD amounts and asset quantities become `ℚ`, SQLite tables become Lean
lists of records, and each public operation becomes a pure state
transformer translated statement-by-statement from the source module or
FastAPI route it names.  Python's `round(x, n)` (round-half-to-even at
`n` decimal places) is modelled by `pyRound`.
-/

/-- Round-half-to-even of a rational to the nearest integer, the rounding
used by Python's builtin `round`. -/
def roundHalfEven (q : ℚ) : ℤ :=
  let f := ⌊q⌋
  let frac := q - f
  if frac < 1/2 then f
  else if 1/2 < frac then f + 1
  else if f % 2 = 0 then f else f + 1

/-- Model of Python's `round(x, nd)`: round half to even at `nd` decimal
places. -/
def pyRound (nd : ℕ) (x : ℚ) : ℚ :=
  (roundHalfEven (x * 10 ^ nd) : ℚ) / 10 ^ nd

/-!
## Valuation Engine: `backend/core/calculos.py` (class `Calculadora`)
Pure functions, no storage access.
-/

/-- Embedding of `Calculadora.calcular_precio_sugerido`: suggested sale
price for a target net profit; `0` when the average cost is non-positive
or the combined percentage factor makes the price infeasible.  The source
rounds the result to 4 decimals. -/
def calcularPrecioSugerido (costo_promedio ganancia_objetivo_pct comision_pct : ℚ) : ℚ :=
  if costo_promedio ≤ 0 then 0
  else
    let factor := (comision_pct + ganancia_objetivo_pct) / 100
    if 1 ≤ factor then 0
    else pyRound 4 (costo_promedio / (1 - factor))

/-- Embedding of `Calculadora.calcular_ganancia_neta_estimada`: estimated
net margin percentage after commission, rounded to 2 decimals. -/
def calcularGananciaNetaEstimada (costo_promedio precio_venta comision_pct : ℚ) : ℚ :=
  if costo_promedio ≤ 0 ∨ precio_venta ≤ 0 then 0
  else
    let efectivo_recibido := precio_venta * (1 - comision_pct / 100)
    pyRound 2 ((efectivo_recibido - costo_promedio) / costo_promedio * 100)

/-- Result record of `Calculadora.calcular_venta` (the dict it returns). -/
structure ResultadoVenta where
  cantidad : ℚ
  costo_unitario : ℚ
  precio_venta : ℚ
  costo_total : ℚ
  monto_venta : ℚ
  comision_pct : ℚ
  comision : ℚ
  efectivo_recibido : ℚ
  ganancia_bruta : ℚ
  ganancia_neta : ℚ
  deriving DecidableEq, Repr

/-- Embedding of `Calculadora.calcular_venta`: full monetary breakdown of
one sale.  Intermediate values are exact; each monetary field of the
returned record is rounded to 2 decimals, exactly as in the source's
returned dict.  Returns `none` on non-positive inputs. -/
def calcularVenta (cantidad costo_unitario precio_venta comision_pct : ℚ) :
    Option ResultadoVenta :=
  if cantidad ≤ 0 ∨ costo_unitario ≤ 0 ∨ precio_venta ≤ 0 then none
  else
    let costo_total := cantidad * costo_unitario
    let monto_venta := cantidad * precio_venta
    let comision := monto_venta * (comision_pct / 100)
    let efectivo_recibido := monto_venta - comision
    let ganancia_bruta := monto_venta - costo_total
    let ganancia_neta := efectivo_recibido - costo_total
    some
      { cantidad := cantidad
        costo_unitario := costo_unitario
        precio_venta := precio_venta
        costo_total := pyRound 2 costo_total
        monto_venta := pyRound 2 monto_venta
        comision_pct := comision_pct
        comision := pyRound 2 comision
        efectivo_recibido := pyRound 2 efectivo_recibido
        ganancia_bruta := pyRound 2 ganancia_bruta
        ganancia_neta := pyRound 2 ganancia_neta }

/-- Embedding of `Calculadora.calcular_capital_total`: total USD value of
a list of (quantity, unit price) holdings, rounded to 2 decimals. -/
def calcularCapitalTotal (criptos : List (ℚ × ℚ)) : ℚ :=
  pyRound 2 ((criptos.map (fun c => c.1 * c.2)).sum)

/-- Embedding of `Calculadora.calcular_promedio_ponderado`: weighted
average price after a purchase, rounded to 4 decimals; `0` when the total
quantity is `0`. -/
def calcularPromedioPonderado (cantidad_anterior precio_anterior cantidad_nueva precio_nuevo : ℚ) : ℚ :=
  if cantidad_anterior + cantidad_nueva = 0 then 0
  else
    pyRound 4 ((cantidad_anterior * precio_anterior + cantidad_nueva * precio_nuevo) /
      (cantidad_anterior + cantidad_nueva))

/-- Embedding of `Calculadora.calcular_roi`: return on investment in
percent, `0` when the investment is non-positive, rounded to 2 decimals. -/
def calcularRoi (ganancia inversion : ℚ) : ℚ :=
  if inversion ≤ 0 then 0 else pyRound 2 (ganancia / inversion * 100)

/-- Embedding of the target-price computation inlined in the
`POST /operaciones/iniciar-dia` route (`api/routes/operaciones.py`):
`precio_objetivo = (capital*(1+g/100)/(1-c/100)) / (capital/tasa)`. -/
def precioObjetivoRuta (capital_usd tasa_compra ganancia_objetivo_pct comision_pct : ℚ) : ℚ :=
  let cantidad_cripto := capital_usd / tasa_compra
  let meta_usd := capital_usd * (1 + ganancia_objetivo_pct / 100)
  let monto_bruto := meta_usd / (1 - comision_pct / 100)
  monto_bruto / cantidad_cripto

/-!
## Data model: the `boveda_ciclo` table and per-position operations

`boveda_ciclo` rows are keyed by `(ciclo_id, cripto_id)` (unique per the
schema).  The table is a list of entries; SQL `SELECT ... WHERE ciclo_id=?
AND cripto_id=?` with `fetchone` is `List.find?`, and `UPDATE ... WHERE`
maps over all matching rows.
-/

/-- One row of the `boveda_ciclo` table: a vault position of one crypto
asset within one cycle. -/
structure Entrada where
  ciclo_id : ℕ
  cripto_id : ℕ
  cantidad : ℚ
  precio_promedio : ℚ
  deriving DecidableEq, Repr

/-- The whole `boveda_ciclo` table. -/
abbrev Boveda := List Entrada

/-- Row predicate for the SQL filter `ciclo_id = ? AND cripto_id = ?`. -/
def esClave (ci cr : ℕ) (e : Entrada) : Bool :=
  e.ciclo_id == ci && e.cripto_id == cr

/-- SQL `SELECT ... WHERE ciclo_id=? AND cripto_id=?` + `fetchone`. -/
def buscarPosicion (b : Boveda) (ci cr : ℕ) : Option Entrada :=
  b.find? (esClave ci cr)

/-- SQL `UPDATE boveda_ciclo SET ... WHERE ciclo_id=? AND cripto_id=?`:
rewrite every matching row with `f`, keep the others. -/
def modificarBoveda (b : Boveda) (ci cr : ℕ) (f : Entrada → Entrada) : Boveda :=
  b.map (fun e => if esClave ci cr e then f e else e)

/-- USD value of one position, `cantidad * precio_promedio`. -/
def valorEntrada (e : Entrada) : ℚ :=
  e.cantidad * e.precio_promedio

/-- Total vault value over all cycles:
`SUM(cantidad * precio_promedio)` over the whole table. -/
def valorTotal (b : Boveda) : ℚ :=
  (b.map valorEntrada).sum

/-- Vault value of one cycle:
`SELECT SUM(cantidad * precio_promedio) ... WHERE ciclo_id = ?`. -/
def valorCiclo (b : Boveda) (ci : ℕ) : ℚ :=
  (b.map (fun e => if e.ciclo_id == ci then valorEntrada e else 0)).sum

/-- Vault value restricted to rows with positive quantity, as used by
`crear_ciclo` (`WHERE bc.cantidad > 0`, over all cycles). -/
def valorPositivo (b : Boveda) : ℚ :=
  (b.map (fun e => if 0 < e.cantidad then valorEntrada e else 0)).sum

/-- The schema's UNIQUE constraint on `(ciclo_id, cripto_id)`. -/
def clavesUnicas (b : Boveda) : Prop :=
  b.Pairwise (fun a e => ¬(a.ciclo_id = e.ciclo_id ∧ a.cripto_id = e.cripto_id))

/-- Key-preserving update functions (every SQL `UPDATE` used by the
source sets only `cantidad` / `precio_promedio`). -/
def preservaClave (f : Entrada → Entrada) : Prop :=
  ∀ e, (f e).ciclo_id = e.ciclo_id ∧ (f e).cripto_id = e.cripto_id

/-!
## Per-position operations

`Posicion` is the value part of one `boveda_ciclo` row, used where a
claim is about a single position rather than the whole table.
-/

/-- Quantity and average cost of a single vault position. -/
structure Posicion where
  cantidad : ℚ
  precio_promedio : ℚ
  deriving DecidableEq, Repr

/-- One deposit step on one position, as implemented identically in
`registrar_compra` (`modules/boveda.py`) and `agregar_capital`
(`api/routes/boveda.py`): weighted-average merge when the row exists,
insert at the purchase rate otherwise. -/
def posicionTrasCompra (actual : Option Posicion) (cantidad tasa : ℚ) : Posicion :=
  match actual with
  | some bov =>
      ⟨bov.cantidad + cantidad,
        (bov.cantidad * bov.precio_promedio + cantidad * tasa) /
          (bov.cantidad + cantidad)⟩
  | none => ⟨cantidad, tasa⟩

/-- Folding a whole sequence of deposits `(cantidad, tasa)` into an
initially absent position. -/
def posicionTrasDepositos (deps : List (ℚ × ℚ)) : Option Posicion :=
  deps.foldl (fun acc d => some (posicionTrasCompra acc d.1 d.2)) none

/-- Embedding of the `POST /boveda/retirar-capital` route
(`api/routes/boveda.py`): error when the requested quantity exceeds the
stored one; delete the row when the remaining quantity is `0`, otherwise
decrement only `cantidad`. -/
def retirarCapital (pos : Posicion) (cantidad : ℚ) : Except String (Option Posicion) :=
  if pos.cantidad < cantidad then .error "Insuficiente"
  else
    let cantidad_nueva := pos.cantidad - cantidad
    if cantidad_nueva ≤ 0 then .ok none
    else .ok (some { pos with cantidad := cantidad_nueva })

/-- The vault decrement performed when a sale is registered
(`UPDATE boveda_ciclo SET cantidad = cantidad - ?` in
`modules/dias.py` / `modules/operador.py`). -/
def posicionTrasVenta (pos : Posicion) (cantidad : ℚ) : Posicion :=
  { pos with cantidad := pos.cantidad - cantidad }

def sumaCantidades (deps : List (ℚ × ℚ)) : ℚ :=
  (deps.map Prod.fst).sum

def sumaCostos (deps : List (ℚ × ℚ)) : ℚ :=
  (deps.map (fun d => d.1 * d.2)).sum

/-!
## Vault Ledger table operations
-/

/-- Deposit into the `boveda_ciclo` table, the common write path of
`registrar_compra` (`modules/boveda.py`) and `agregar_capital`
(`api/routes/boveda.py`): weighted-average `UPDATE` when the row exists,
`INSERT` at the purchase rate otherwise. -/
def depositarEnBoveda (b : Boveda) (ci cr : ℕ) (cantidad tasa : ℚ) : Boveda :=
  match buscarPosicion b ci cr with
  | some bov =>
      let cantidad_total := bov.cantidad + cantidad
      let precio_promedio_nuevo :=
        (bov.cantidad * bov.precio_promedio + cantidad * tasa) / cantidad_total
      modificarBoveda b ci cr
        (fun e => { e with cantidad := cantidad_total,
                           precio_promedio := precio_promedio_nuevo })
  | none => b ++ [⟨ci, cr, cantidad, tasa⟩]

/-- Embedding of `transferir_capital` (`modules/boveda.py`) as it
actually executes.  After the interactive selection finds the source row
and validates `0 < cantidad` and `cantidad` at most the available
quantity (lines 431-440), the write transaction is opened with
`with db.transaction() as conn:` (line 458) — but `DatabaseManager`
(`core/db_manager.py`) defines no `transaction` method, so that
statement raises `AttributeError` before any SQL of the block runs; the
generic `except Exception` at line 518 catches it and the function
returns with the vault table unchanged.  The block's intended source
decrement and weighted-average destination credit are dead code, and
the `destino` cycle (the active one) is never consulted for a write. -/
def transferirCapital (b : Boveda) (origen destino cr : ℕ) (cantidad : ℚ) :
    Boveda × Except String Unit :=
  match buscarPosicion b origen cr with
  | none => (b, .error "Seleccion invalida")
  | some src =>
    if cantidad ≤ 0 ∨ src.cantidad < cantidad then
      (b, .error "Cantidad invalida")
    else
      (b, .error "AttributeError: DatabaseManager has no attribute transaction")

/-!
## Cycles, days, sales and configuration

Rows of the `ciclos`, `dias`, `ventas` and `config` tables.  Date/text
columns play no role in any claim and are omitted; every field a claim
touches is present.
-/

inductive EstadoCiclo where
  | activo
  | cerrado
  deriving DecidableEq, Repr

inductive EstadoDia where
  | abierto
  | cerrado
  deriving DecidableEq, Repr

/-- One row of the `ciclos` table. -/
structure Ciclo where
  id : ℕ
  estado : EstadoCiclo
  inversion_inicial : ℚ
  ganancia_total : ℚ
  dias_operados : ℕ
  capital_final : Option ℚ
  roi_total : Option ℚ
  deriving DecidableEq, Repr

/-- One row of the `dias` table. -/
structure Dia where
  id : ℕ
  ciclo_id : ℕ
  numero_dia : ℕ
  estado : EstadoDia
  capital_inicial : ℚ
  efectivo_recibido : ℚ
  comisiones_pagadas : ℚ
  ganancia_bruta : ℚ
  ganancia_neta : ℚ
  deriving DecidableEq, Repr

/-- One row of the `ventas` table (audit entry of one sale). -/
structure Venta where
  dia_id : ℕ
  cripto_id : ℕ
  cantidad : ℚ
  precio_unitario : ℚ
  costo_total : ℚ
  monto_venta : ℚ
  comision : ℚ
  efectivo_recibido : ℚ
  ganancia_bruta : ℚ
  ganancia_neta : ℚ
  deriving DecidableEq, Repr

/-- The singleton `config` row (fields the core reads). -/
structure Config where
  comision_default : ℚ
  ganancia_neta_default : ℚ
  deriving DecidableEq, Repr

/-- SQL `SELECT * FROM ciclos WHERE estado = 'activo' ... LIMIT 1`. -/
def cicloActivo (ciclos : List Ciclo) : Option Ciclo :=
  ciclos.find? (fun c => c.estado == EstadoCiclo.activo)

/-- Number of `activo` rows in the `ciclos` table. -/
def numActivos (ciclos : List Ciclo) : ℕ :=
  (ciclos.filter (fun c => c.estado == EstadoCiclo.activo)).length

/-- SQL `SELECT * FROM dias WHERE ciclo_id = ? AND estado = 'abierto'`
with `fetchone` (`obtener_dia_actual` in `modules/dias.py`). -/
def obtenerDiaActual (dias : List Dia) (ci : ℕ) : Option Dia :=
  dias.find? (fun d => d.ciclo_id == ci && d.estado == EstadoDia.abierto)

/-- SQL `SELECT COALESCE(MAX(numero_dia), 0) + 1 ... WHERE ciclo_id = ?`. -/
def siguienteNumeroDia (dias : List Dia) (ci : ℕ) : ℕ :=
  ((dias.filter (fun d => d.ciclo_id == ci)).map (fun d => d.numero_dia)).foldl
    Nat.max 0 + 1

/-- Embedding of `calcular_capital_actual_criptos` (`modules/dias.py`):
`calcular_capital_total` over the cycle's positive-quantity positions
(rounded to 2 decimals by `calcular_capital_total`). -/
def calcularCapitalActualCriptos (b : Boveda) (ci : ℕ) : ℚ :=
  calcularCapitalTotal
    ((b.filter (fun e => e.ciclo_id == ci && decide (0 < e.cantidad))).map
      (fun e => (e.cantidad, e.precio_promedio)))

/-!
## Cycle Lifecycle operations
-/

/-- Embedding of `crear_ciclo` (`modules/ciclos.py`): inserts a new
`activo` cycle row whose `inversion_inicial` is the whole vault's
positive-quantity value; performs NO check for an existing active cycle.
When the vault is empty the source asks for interactive confirmation and
then inserts anyway; the modelled path is the insert.  `nid` stands for
the autoincrement id. -/
def crearCiclo (ciclos : List Ciclo) (b : Boveda) (nid : ℕ) : List Ciclo :=
  ciclos ++ [{ id := nid, estado := EstadoCiclo.activo,
               inversion_inicial := valorPositivo b, ganancia_total := 0,
               dias_operados := 0, capital_final := none, roi_total := none }]

/-- Vault value of the closed cycles, as computed by the capital query of
`POST /ciclos/iniciar` (`SUM` over `boveda_ciclo JOIN ciclos WHERE
estado = 'cerrado'`; the `ORDER BY/LIMIT` clause of the source has no
effect on the single aggregated row). -/
def capitalBovedaCerrados (ciclos : List Ciclo) (b : Boveda) : ℚ :=
  (b.map (fun e =>
    match ciclos.find? (fun c => c.id == e.ciclo_id) with
    | some c => if c.estado == EstadoCiclo.cerrado then valorEntrada e else 0
    | none => 0)).sum

/-- Embedding of `POST /ciclos/iniciar` (`api/routes/ciclos.py`,
`iniciar_nuevo_ciclo`): fails when an `activo` cycle exists (no row
inserted), otherwise inserts a new `activo` cycle with the requested or
computed capital. -/
def iniciarNuevoCiclo (ciclos : List Ciclo) (b : Boveda)
    (capital_inicial : Option ℚ) (nid : ℕ) : Except String (List Ciclo) :=
  if (ciclos.find? (fun c => c.estado == EstadoCiclo.activo)).isSome then
    .error "Ya existe un ciclo activo"
  else
    let capital :=
      match capital_inicial with
      | none => capitalBovedaCerrados ciclos b
      | some v => if v = 0 then capitalBovedaCerrados ciclos b else v
    .ok (ciclos ++ [{ id := nid, estado := EstadoCiclo.activo,
                      inversion_inicial := capital, ganancia_total := 0,
                      dias_operados := 0, capital_final := none,
                      roi_total := none }])

/-- Embedding of `cerrar_ciclo` (`modules/ciclos.py`), confirmed path:
`none` when the cycle is missing or one of its days is `abierto`
(nothing written); otherwise stamps the final statistics and the
`cerrado` state onto the cycle row. -/
def cerrarCiclo (ciclos : List Ciclo) (dias : List Dia) (b : Boveda)
    (cid : ℕ) : Option (List Ciclo) :=
  match ciclos.find? (fun c => c.id == cid) with
  | none => none
  | some ciclo =>
    match dias.find? (fun d => d.ciclo_id == cid && d.estado == EstadoDia.abierto) with
    | some _ => none
    | none =>
      let cerrados := dias.filter
        (fun d => d.ciclo_id == cid && d.estado == EstadoDia.cerrado)
      let dias_operados := cerrados.length
      let ganancia_total := (cerrados.map (fun d => d.ganancia_neta)).sum
      let capital_final := valorCiclo b cid
      let roi := if 0 < ciclo.inversion_inicial
        then ganancia_total / ciclo.inversion_inicial * 100 else 0
      some (ciclos.map (fun c =>
        if c.id == cid then
          { c with
              estado := EstadoCiclo.cerrado
              dias_operados := dias_operados
              ganancia_total := ganancia_total
              capital_final := some capital_final
              roi_total := some roi }
        else c))

/-- Embedding of `POST /ciclos/finalizar` (`api/routes/ciclos.py`,
`finalizar_ciclo_actual`): closes the first `activo` cycle stamping
`capital_final = inversion_inicial + ganancia_total` and the ROI.  The
route performs NO open-day check, so the `dias` table is not consulted. -/
def finalizarCicloActual (ciclos : List Ciclo) : Except String (List Ciclo) :=
  match cicloActivo ciclos with
  | none => .error "No hay ciclo activo"
  | some ciclo =>
    let capital_final := ciclo.inversion_inicial + ciclo.ganancia_total
    let roi := if 0 < ciclo.inversion_inicial
      then ciclo.ganancia_total / ciclo.inversion_inicial * 100 else 0
    .ok (ciclos.map (fun c =>
      if c.id == ciclo.id then
        { c with
            estado := EstadoCiclo.cerrado
            capital_final := some capital_final
            roi_total := some roi }
      else c))

/-!
## Day Lifecycle and Sale Processor operations
-/

/-- Embedding of `iniciar_dia` (`modules/dias.py`): when a day of the
cycle is already `abierto`, it logs a warning and returns that day's id
WITHOUT raising and without inserting; otherwise inserts a new `abierto`
day with `numero_dia = MAX+1` and `capital_inicial` snapshotted from the
cycle's vault.  Returns the updated table and the returned day id
(`nid` stands for the autoincrement id). -/
def iniciarDia (dias : List Dia) (b : Boveda) (ci : ℕ) (nid : ℕ) :
    List Dia × ℕ :=
  match obtenerDiaActual dias ci with
  | some dia_actual => (dias, dia_actual.id)
  | none =>
    let numero_dia := siguienteNumeroDia dias ci
    let capital_inicial := calcularCapitalActualCriptos b ci
    (dias ++ [{ id := nid, ciclo_id := ci, numero_dia := numero_dia,
                estado := EstadoDia.abierto, capital_inicial := capital_inicial,
                efectivo_recibido := 0, comisiones_pagadas := 0,
                ganancia_bruta := 0, ganancia_neta := 0 }], nid)

/-- Embedding of `POST /operaciones/iniciar-dia` (`api/routes/operaciones.py`):
fails when no cycle is `activo` or when a day of that cycle is already
`abierto` (no row inserted); otherwise inserts a new `abierto` day for
the active cycle with `capital_inicial = capital_usd`.  The inserted
row's extra pricing columns are outside the modelled schema; the fields
every claim touches are present. -/
def iniciarDiaRuta (ciclos : List Ciclo) (dias : List Dia)
    (capital_usd : ℚ) (nid : ℕ) : Except String (List Dia × ℕ) :=
  match cicloActivo ciclos with
  | none => .error "No hay ciclo activo"
  | some ciclo =>
    match obtenerDiaActual dias ciclo.id with
    | some _ => .error "Ya hay un día abierto"
    | none =>
      let numero_dia := siguienteNumeroDia dias ciclo.id
      .ok (dias ++ [{ id := nid, ciclo_id := ciclo.id, numero_dia := numero_dia,
                      estado := EstadoDia.abierto, capital_inicial := capital_usd,
                      efectivo_recibido := 0, comisiones_pagadas := 0,
                      ganancia_bruta := 0, ganancia_neta := 0 }], nid)

/-- Embedding of the sale-breakdown computation inside `registrar_venta`
(`modules/dias.py`, lines fetching the config commission and calling the
Valuation Engine): the source reads `comision_default` from `config` but
then calls `calc.calcular_venta(cantidad=..., costo_unitario=...,
precio_venta=...)` WITHOUT passing it, so Python applies the signature
default `comision_pct=0.35` regardless of the stored rate. -/
def ventaBreakdownDias (config : Config) (cantidad costo_unitario precio_venta : ℚ) :
    Option ResultadoVenta :=
  let _comision_pct := config.comision_default
  calcularVenta cantidad costo_unitario precio_venta (35/100)

/-- Mutable state touched by `registrar_venta_manual`
(`modules/operador.py`): the vault table, the sales audit table and the
days table. -/
structure EstadoOperador where
  boveda : Boveda
  ventas : List Venta
  dias : List Dia
  deriving DecidableEq, Repr

/-- Embedding of `registrar_venta_manual` (`modules/operador.py`),
commit point by commit point:
1. the day's `ciclo_id` and the vault average cost are read (failure
   before any write leaves the state unchanged);
2. the sale row is inserted through `db.execute_update`, which COMMITS
   on its own;
3. a separate transaction decrements the vault row and re-reads it; when
   the new quantity is negative it raises, rolling back ONLY this
   transaction — the already-committed sale row survives;
4. a third transaction adds the breakdown to the day's running totals.
The result pairs the post-call state with `.ok` on success or `.error`
when the source raises. -/
def registrarVentaManual (s : EstadoOperador) (dia_id cripto_id : ℕ)
    (cantidad precio_unitario comision_pct : ℚ) :
    EstadoOperador × Except String Unit :=
  match s.dias.find? (fun d => d.id == dia_id) with
  | none => (s, .error "Día no encontrado")
  | some dia =>
    match buscarPosicion s.boveda dia.ciclo_id cripto_id with
    | none => (s, .error "No hay criptos en bóveda")
    | some bov =>
      let costo_unitario := bov.precio_promedio
      match calcularVenta cantidad costo_unitario precio_unitario comision_pct with
      | none => (s, .error "Error al calcular la venta")
      | some venta_calculada =>
        let ventas1 := s.ventas ++
          [{ dia_id := dia_id, cripto_id := cripto_id, cantidad := cantidad,
             precio_unitario := precio_unitario,
             costo_total := venta_calculada.costo_total,
             monto_venta := venta_calculada.monto_venta,
             comision := venta_calculada.comision,
             efectivo_recibido := venta_calculada.efectivo_recibido,
             ganancia_bruta := venta_calculada.ganancia_bruta,
             ganancia_neta := venta_calculada.ganancia_neta }]
        let b1 := modificarBoveda s.boveda dia.ciclo_id cripto_id
          (fun e => { e with cantidad := e.cantidad - cantidad })
        let exito : EstadoOperador × Except String Unit :=
          ({ boveda := b1
             ventas := ventas1
             dias := s.dias.map (fun d =>
               if d.id == dia_id then
                 { d with
                     efectivo_recibido :=
                       d.efectivo_recibido + venta_calculada.efectivo_recibido
                     comisiones_pagadas :=
                       d.comisiones_pagadas + venta_calculada.comision
                     ganancia_bruta :=
                       d.ganancia_bruta + venta_calculada.ganancia_bruta
                     ganancia_neta :=
                       d.ganancia_neta + venta_calculada.ganancia_neta }
               else d) }, .ok ())
        match buscarPosicion b1 dia.ciclo_id cripto_id with
        | some e =>
          if e.cantidad < 0 then
            ({ s with ventas := ventas1 }, .error "cantidad en bóveda insuficiente")
          else exito
        | none => exito

/-!
## Vault capital routes
-/

/-- Embedding of `POST /boveda/agregar-capital` (`api/routes/boveda.py`),
one transaction: find (or auto-create) the active cycle, deposit
`monto_usd / precio_unitario` units at `precio_unitario` into its vault
row, then recompute the cycle's whole vault value and store it in
`inversion_inicial` — all before the single commit.  The crypto-symbol
existence check only gates the operation and is outside the model. -/
def agregarCapital (ciclos : List Ciclo) (b : Boveda) (cripto_id : ℕ)
    (monto_usd precio_unitario : ℚ) (nid : ℕ) : List Ciclo × Boveda :=
  let par : List Ciclo × ℕ :=
    match cicloActivo ciclos with
    | some c => (ciclos, c.id)
    | none => (ciclos ++ [{ id := nid, estado := EstadoCiclo.activo,
                            inversion_inicial := 0, ganancia_total := 0,
                            dias_operados := 0, capital_final := none,
                            roi_total := none }], nid)
  let ciclos1 := par.1
  let ci := par.2
  let cantidad_cripto := monto_usd / precio_unitario
  let b1 := depositarEnBoveda b ci cripto_id cantidad_cripto precio_unitario
  let total := valorCiclo b1 ci
  (ciclos1.map (fun c =>
    if c.id == ci then { c with inversion_inicial := total } else c), b1)

/-- Embedding of `POST /ciclos/transferir-capital`
(`api/routes/ciclos.py`, `transferir_capital_a_ciclo`): after the
insufficiency check it only ADDS `cantidad * precio_promedio` to the
active cycle's `inversion_inicial`; the `boveda_ciclo` table itself is
never written. -/
def transferirCapitalACiclo (ciclos : List Ciclo) (b : Boveda)
    (cripto_id : ℕ) (cantidad : ℚ) (transferir_todo : Bool) :
    Except String (List Ciclo × Boveda) :=
  match cicloActivo ciclos with
  | none => .error "No hay ciclo activo"
  | some ciclo =>
    match buscarPosicion b ciclo.id cripto_id with
    | none => .error "Criptomoneda no encontrada en bóveda"
    | some bov =>
      let cantidad_transferir := if transferir_todo then bov.cantidad else cantidad
      if bov.cantidad < cantidad_transferir then
        .error "Cantidad insuficiente"
      else
        let valor_usd := cantidad_transferir * bov.precio_promedio
        let nuevo_capital := ciclo.inversion_inicial + valor_usd
        .ok (ciclos.map (fun c =>
          if c.id == ciclo.id then
            { c with inversion_inicial := nuevo_capital } else c), b)

/-!
## Lemmas and claim theorems
-/

theorem esClave_of_preserva {f : Entrada → Entrada} (hf : preservaClave f)
    (ci cr : ℕ) (e : Entrada) : esClave ci cr (f e) = esClave ci cr e := by
  simp [esClave, (hf e).1, (hf e).2]

theorem modificar_eq_self {b : Boveda} {ci cr : ℕ} {f : Entrada → Entrada}
    (h : ∀ e ∈ b, esClave ci cr e = false) :
    modificarBoveda b ci cr f = b := by
  induction b with
  | nil => rfl
  | cons a t ih =>
    have ha := h a (List.mem_cons_self a t)
    have ht := ih (fun e he => h e (List.mem_cons_of_mem _ he))
    simp only [modificarBoveda, List.map_cons] at ht ⊢
    rw [if_neg (by simp [ha]), ht]

theorem sum_map_modificar (c : Entrada → ℚ) {b : Boveda} {ci cr : ℕ}
    (f : Entrada → Entrada) (hu : clavesUnicas b) {e : Entrada}
    (he : buscarPosicion b ci cr = some e) :
    ((modificarBoveda b ci cr f).map c).sum = (b.map c).sum - c e + c (f e) := by
  induction b with
  | nil => simp [buscarPosicion] at he
  | cons a t ih =>
    cases hcl : esClave ci cr a with
    | false =>
      have he' : buscarPosicion t ci cr = some e := by
        simpa [buscarPosicion, List.find?_cons_of_neg, hcl] using he
      have ht := ih hu.tail he'
      simp only [modificarBoveda, List.map_cons] at ht ⊢
      rw [if_neg (by simp [hcl])]
      simp only [List.sum_cons, ht]
      ring
    | true =>
      have hea : e = a := by
        have := he
        simp only [buscarPosicion, List.find?_cons_of_pos _ hcl] at this
        exact (Option.some_inj.mp this).symm
      subst hea
      have h1 : e.ciclo_id = ci ∧ e.cripto_id = cr := by
        simpa [esClave] using hcl
      have htt : ∀ x ∈ t, esClave ci cr x = false := by
        intro x hx
        have hkey := (List.pairwise_cons.mp hu).1 x hx
        simp only [esClave, Bool.and_eq_false_iff, beq_eq_false_iff_ne]
        by_contra hcon
        push_neg at hcon
        exact hkey ⟨h1.1.trans hcon.1.symm, h1.2.trans hcon.2.symm⟩
      have hrest : modificarBoveda t ci cr f = t := modificar_eq_self htt
      simp only [modificarBoveda, List.map_cons] at hrest ⊢
      rw [if_pos hcl, hrest]
      simp only [List.sum_cons]
      ring

theorem buscar_modificar_self {b : Boveda} {ci cr : ℕ} {f : Entrada → Entrada}
    (hf : preservaClave f) {e : Entrada}
    (he : buscarPosicion b ci cr = some e) :
    buscarPosicion (modificarBoveda b ci cr f) ci cr = some (f e) := by
  induction b with
  | nil => simp [buscarPosicion] at he
  | cons a t ih =>
    cases hcl : esClave ci cr a with
    | false =>
      have he' : buscarPosicion t ci cr = some e := by
        simpa [buscarPosicion, List.find?_cons_of_neg, hcl] using he
      have ht := ih he'
      simp only [modificarBoveda, List.map_cons] at ht ⊢
      rw [if_neg (by simp [hcl])]
      simpa [buscarPosicion, List.find?_cons_of_neg, hcl] using ht
    | true =>
      have hea : e = a := by
        have := he
        simp only [buscarPosicion, List.find?_cons_of_pos _ hcl] at this
        exact (Option.some_inj.mp this).symm
      subst hea
      have hfe : esClave ci cr (f e) = true := by
        rw [esClave_of_preserva hf]; exact hcl
      simp only [modificarBoveda, List.map_cons]
      rw [if_pos hcl]
      simp [buscarPosicion, List.find?_cons_of_pos _ hfe]

theorem buscar_modificar_otro {b : Boveda} {ci cr ci' cr' : ℕ}
    {f : Entrada → Entrada} (hf : preservaClave f)
    (hne : ¬(ci' = ci ∧ cr' = cr)) :
    buscarPosicion (modificarBoveda b ci cr f) ci' cr' = buscarPosicion b ci' cr' := by
  induction b with
  | nil => rfl
  | cons a t ih =>
    cases hcl : esClave ci cr a with
    | false =>
      simp only [modificarBoveda, List.map_cons] at ih ⊢
      rw [if_neg (by simp [hcl])]
      cases hcl' : esClave ci' cr' a with
      | false =>
        have hna : ¬ esClave ci' cr' a = true := by simp [hcl']
        simp only [buscarPosicion] at ih ⊢
        rw [List.find?_cons_of_neg _ hna, List.find?_cons_of_neg _ hna]
        exact ih
      | true =>
        simp [buscarPosicion, List.find?_cons_of_pos _ hcl']
    | true =>
      have h1 : a.ciclo_id = ci ∧ a.cripto_id = cr := by
        simpa [esClave] using hcl
      have hcl' : esClave ci' cr' a = false := by
        simp only [esClave, Bool.and_eq_false_iff, beq_eq_false_iff_ne]
        by_contra hcon
        push_neg at hcon
        exact hne ⟨hcon.1.symm.trans h1.1, hcon.2.symm.trans h1.2⟩
      have hclf : esClave ci' cr' (f a) = false := by
        rw [esClave_of_preserva hf]; exact hcl'
      have hnf : ¬ esClave ci' cr' (f a) = true := by simp [hclf]
      have hna : ¬ esClave ci' cr' a = true := by simp [hcl']
      simp only [modificarBoveda, List.map_cons] at ih ⊢
      rw [if_pos hcl]
      simp only [buscarPosicion] at ih ⊢
      rw [List.find?_cons_of_neg _ hnf, List.find?_cons_of_neg _ hna]
      exact ih

theorem clavesUnicas_modificar {b : Boveda} {ci cr : ℕ} {f : Entrada → Entrada}
    (hf : preservaClave f) (hu : clavesUnicas b) :
    clavesUnicas (modificarBoveda b ci cr f) := by
  have hg : ∀ e : Entrada,
      ((if esClave ci cr e then f e else e).ciclo_id = e.ciclo_id) ∧
      ((if esClave ci cr e then f e else e).cripto_id = e.cripto_id) := by
    intro e
    by_cases hc : esClave ci cr e = true
    · rw [if_pos hc]; exact hf e
    · rw [if_neg hc]; exact ⟨rfl, rfl⟩
  unfold modificarBoveda clavesUnicas
  rw [List.pairwise_map]
  refine hu.imp ?_
  intro a e h
  rw [(hg a).1, (hg a).2, (hg e).1, (hg e).2]
  exact h

theorem sum_map_append_uno (c : Entrada → ℚ) (b : Boveda) (e : Entrada) :
    ((b ++ [e]).map c).sum = (b.map c).sum + c e := by
  simp

theorem buscar_append_uno {b : Boveda} {ci cr : ℕ} (e : Entrada)
    (hn : buscarPosicion b ci cr = none) :
    buscarPosicion (b ++ [e]) ci cr =
      if esClave ci cr e then some e else none := by
  simp only [buscarPosicion] at hn ⊢
  rw [List.find?_append, hn]
  cases h : esClave ci cr e <;> simp [List.find?, h]

theorem foldl_compra_spec (deps : List (ℚ × ℚ)) :
    ∀ acc : Posicion, 0 < acc.cantidad → (∀ d ∈ deps, 0 < d.1) →
    deps.foldl (fun a d => some (posicionTrasCompra a d.1 d.2)) (some acc) =
      some ⟨acc.cantidad + sumaCantidades deps,
        (acc.cantidad * acc.precio_promedio + sumaCostos deps) /
          (acc.cantidad + sumaCantidades deps)⟩ := by
  induction deps with
  | nil =>
    intro acc hacc _
    simp only [List.foldl_nil, sumaCantidades, sumaCostos, List.map_nil,
      List.sum_nil, add_zero]
    rw [mul_div_cancel_left₀ _ (ne_of_gt hacc)]
  | cons d ds ih =>
    intro acc hacc hpos
    have hd : 0 < d.1 := hpos d (List.mem_cons_self d ds)
    have hds : ∀ x ∈ ds, 0 < x.1 := fun x hx => hpos x (List.mem_cons_of_mem _ hx)
    have hacc' : (0:ℚ) < acc.cantidad + d.1 := by linarith
    rw [List.foldl_cons]
    have hstep : posicionTrasCompra (some acc) d.1 d.2 =
        (⟨acc.cantidad + d.1,
          (acc.cantidad * acc.precio_promedio + d.1 * d.2) /
            (acc.cantidad + d.1)⟩ : Posicion) := rfl
    rw [hstep, ih ⟨acc.cantidad + d.1, _⟩ hacc' hds]
    have hcan : (acc.cantidad + d.1) *
        ((acc.cantidad * acc.precio_promedio + d.1 * d.2) / (acc.cantidad + d.1)) =
        acc.cantidad * acc.precio_promedio + d.1 * d.2 := by
      rw [← mul_div_assoc, mul_div_cancel_left₀ _ (ne_of_gt hacc')]
    simp only [sumaCantidades, sumaCostos, List.map_cons, List.sum_cons,
      Option.some.injEq, Posicion.mk.injEq]
    constructor
    · ring
    · rw [hcan]; ring

theorem posicionTrasDepositos_spec (deps : List (ℚ × ℚ)) (hne : deps ≠ [])
    (hpos : ∀ d ∈ deps, 0 < d.1) :
    posicionTrasDepositos deps =
      some ⟨sumaCantidades deps, sumaCostos deps / sumaCantidades deps⟩ := by
  match deps, hne with
  | d :: ds, _ =>
    have hd : 0 < d.1 := hpos d (List.mem_cons_self d ds)
    have hds : ∀ x ∈ ds, 0 < x.1 := fun x hx => hpos x (List.mem_cons_of_mem _ hx)
    have hstep : posicionTrasDepositos (d :: ds) =
        ds.foldl (fun a x => some (posicionTrasCompra a x.1 x.2))
          (some (⟨d.1, d.2⟩ : Posicion)) := rfl
    rw [hstep, foldl_compra_spec ds ⟨d.1, d.2⟩ hd hds]
    simp only [sumaCantidades, sumaCostos, List.map_cons, List.sum_cons]

theorem buscar_append_of_some {b : Boveda} {l : List Entrada} {ci cr : ℕ}
    {e : Entrada} (h : buscarPosicion b ci cr = some e) :
    buscarPosicion (b ++ l) ci cr = some e := by
  have h' : List.find? (esClave ci cr) b = some e := h
  simp [buscarPosicion, List.find?_append, h']

theorem valorTotal_depositar {b : Boveda} {ci cr : ℕ} {cantidad tasa : ℚ}
    (hu : clavesUnicas b)
    (hden : ∀ e, buscarPosicion b ci cr = some e → e.cantidad + cantidad ≠ 0) :
    valorTotal (depositarEnBoveda b ci cr cantidad tasa) =
      valorTotal b + cantidad * tasa := by
  unfold depositarEnBoveda
  cases hb : buscarPosicion b ci cr with
  | none =>
    simp only [valorTotal]
    rw [sum_map_append_uno]
    simp [valorEntrada]
  | some bov =>
    have hden' := hden bov hb
    simp only [valorTotal]
    rw [sum_map_modificar valorEntrada _ hu hb]
    simp only [valorEntrada]
    rw [← mul_div_assoc, mul_div_cancel_left₀ _ hden']
    ring

theorem valorCiclo_depositar {b : Boveda} {ci cr : ℕ} {cantidad tasa : ℚ}
    (hu : clavesUnicas b)
    (hden : ∀ e, buscarPosicion b ci cr = some e → e.cantidad + cantidad ≠ 0) :
    valorCiclo (depositarEnBoveda b ci cr cantidad tasa) ci =
      valorCiclo b ci + cantidad * tasa := by
  unfold depositarEnBoveda
  cases hb : buscarPosicion b ci cr with
  | none =>
    simp only [valorCiclo]
    rw [sum_map_append_uno]
    simp [valorEntrada]
  | some bov =>
    have hden' := hden bov hb
    have hkey : bov.ciclo_id = ci := by
      have := List.find?_some hb
      simp only [esClave, Bool.and_eq_true, beq_iff_eq] at this
      exact this.1
    simp only [valorCiclo]
    rw [sum_map_modificar _ _ hu hb]
    simp only [hkey, beq_self_eq_true, if_pos, valorEntrada]
    rw [← mul_div_assoc, mul_div_cancel_left₀ _ hden']
    ring

theorem clavesUnicas_append_uno {b : Boveda} {ci cr : ℕ} {q p : ℚ}
    (hu : clavesUnicas b) (hn : buscarPosicion b ci cr = none) :
    clavesUnicas (b ++ [⟨ci, cr, q, p⟩]) := by
  have hnone : ∀ x ∈ b, esClave ci cr x = false := by
    intro x hx
    have := List.find?_eq_none.mp hn x hx
    simpa using this
  unfold clavesUnicas
  rw [List.pairwise_append]
  refine ⟨hu, List.pairwise_singleton _ _, ?_⟩
  intro a ha e he'
  simp only [List.mem_singleton] at he'
  subst he'
  have := hnone a ha
  simp only [esClave, Bool.and_eq_false_iff, beq_eq_false_iff_ne] at this
  intro hc
  rcases this with h | h
  · exact h (by simpa using hc.1)
  · exact h (by simpa using hc.2)

theorem clavesUnicas_depositar {b : Boveda} {ci cr : ℕ} {cantidad tasa : ℚ}
    (hu : clavesUnicas b) :
    clavesUnicas (depositarEnBoveda b ci cr cantidad tasa) := by
  unfold depositarEnBoveda
  cases hb : buscarPosicion b ci cr with
  | none => exact clavesUnicas_append_uno hu hb
  | some bov =>
    exact clavesUnicas_modificar (fun e => ⟨rfl, rfl⟩) hu

theorem valorTotal_modificar {b : Boveda} {ci cr : ℕ} {f : Entrada → Entrada}
    (hu : clavesUnicas b) {e : Entrada}
    (he : buscarPosicion b ci cr = some e) :
    valorTotal (modificarBoveda b ci cr f) =
      valorTotal b - valorEntrada e + valorEntrada (f e) :=
  sum_map_modificar valorEntrada f hu he

theorem valorTotal_append_uno (b : Boveda) (e : Entrada) :
    valorTotal (b ++ [e]) = valorTotal b + valorEntrada e :=
  sum_map_append_uno valorEntrada b e

/-- C8 (counterexample): at the spec's own input
`(qty=100, avg_cost=1, sale_price=1.0235, commission_pct=0.35)` the
breakdown returned by `calcular_venta` carries `comision = 0.36`, not
the full-precision `0.358225` the claim states: the source rounds every
monetary field of the returned dict to 2 decimals. -/
theorem C8_contraejemplo :
    (calcularVenta 100 1 (10235/10000) (35/100)).map (fun v => v.comision) =
      some (9/25)
    ∧ (9/25 : ℚ) ≠ 358225/1000000 := by
  constructor
  · norm_num [calcularVenta, pyRound, roundHalfEven]
  · norm_num

/-- C8 (amended): `calcular_venta(qty=100, avg_cost=1, sale_price=1.0235,
commission_pct=0.35)` computes the breakdown at full precision
internally but returns every monetary field rounded to 2 decimals:
`costo_total = 100.00`, `monto_venta = 102.35`, `comision = 0.36`,
`efectivo_recibido = 101.99`, `ganancia_bruta = 2.35`,
`ganancia_neta = 1.99` (the derived fields are rounded from the exact
intermediate values, e.g. `ganancia_neta = round(101.991775 - 100, 2)`,
not recomputed from the rounded fields). -/
theorem C8_desglose_redondeado :
    calcularVenta 100 1 (10235/10000) (35/100) = some
      { cantidad := 100
        costo_unitario := 1
        precio_venta := 10235/10000
        costo_total := 100
        monto_venta := 10235/100
        comision_pct := 35/100
        comision := 9/25
        efectivo_recibido := 10199/100
        ganancia_bruta := 47/20
        ganancia_neta := 199/100 } := by
  norm_num [calcularVenta, pyRound, roundHalfEven]

/-- C9 (counterexample): `calcular_precio_sugerido(1, 2, 0.35)` returns
the 4-decimal rounding `1.0241`, which differs from the exact value
`1/(1-0.0235)` the claim asserts. -/
theorem C9_contraejemplo :
    calcularPrecioSugerido 1 2 (35/100) = 10241/10000
    ∧ (10241/10000 : ℚ) ≠ 1 / (1 - (35/100 + 2)/100) := by
  constructor
  · norm_num [calcularPrecioSugerido, pyRound, roundHalfEven]
  · norm_num

/-- C9 (amended): for every positive average cost,
`calcular_precio_sugerido` returns the claim's formula
`avg_cost / (1 - (commission+target)/100)` ROUNDED to 4 decimals, and
`0` when the divisor is `≤ 0`; the target price computed by the
`POST /operaciones/iniciar-dia` route follows the different formula
`tasa * (1 + target/100) / (1 - commission/100)`, which at the spec's
example input does not equal the claimed formula's value. -/
theorem C9_precio_sugerido (costo g c : ℚ) (hc : 0 < costo) :
    (calcularPrecioSugerido costo g c =
      if 1 - (c + g)/100 ≤ 0 then 0
      else pyRound 4 (costo / (1 - (c + g)/100)))
    ∧ (∀ capital tasa : ℚ, capital ≠ 0 → tasa ≠ 0 → (1 : ℚ) - c/100 ≠ 0 →
        precioObjetivoRuta capital tasa g c = tasa * (1 + g/100) / (1 - c/100))
    ∧ precioObjetivoRuta 100 1 2 (35/100) ≠ 1 / (1 - (35/100 + 2)/100) := by
  refine ⟨?_, ?_, ?_⟩
  · unfold calcularPrecioSugerido
    rw [if_neg (not_le.mpr hc)]
    by_cases hf : (1:ℚ) ≤ (c + g)/100
    · rw [if_pos hf, if_pos (by linarith)]
    · rw [if_neg hf, if_neg (by push_neg at hf ⊢; linarith)]
  · intro capital tasa hcap htasa hdiv
    have hdd : capital / (capital / tasa) = tasa := by
      rw [div_div_eq_mul_div, mul_comm, mul_div_assoc,
        div_self hcap, mul_one]
    calc precioObjetivoRuta capital tasa g c
        = capital * (1 + g / 100) / (1 - c / 100) / (capital / tasa) := rfl
      _ = (1 + g / 100) / (1 - c / 100) * (capital / (capital / tasa)) := by
          ring
      _ = tasa * (1 + g / 100) / (1 - c / 100) := by rw [hdd]; ring
  · unfold precioObjetivoRuta
    norm_num

/-- C9 (witness): the amended theorem applied at the spec's example
`(avg_cost=1, target=2, commission=0.35)`, where the rounded value is
`1.0241`. -/
theorem C9_testigo :
    calcularPrecioSugerido 1 2 (35/100) =
      (if (1:ℚ) - (35/100 + 2)/100 ≤ 0 then 0
       else pyRound 4 (1 / (1 - (35/100 + 2)/100))) :=
  (C9_precio_sugerido 1 2 (35/100) (by norm_num)).1

/-- C5: the sale breakdown recorded by `registrar_venta`
(`modules/dias.py`) ignores the commission rate stored in `config`: with
`comision_default = 1` (1 %), a sale of 100 units at price 1.0235 and
average cost 1 is recorded with `comision = 0.36` (the hard-coded 0.35 %
default, rounded), while the stored rate demands
`102.35 * 1 / 100 = 1.0235`. -/
theorem C5_comision_config_ignorada :
    (ventaBreakdownDias { comision_default := 1, ganancia_neta_default := 2 }
        100 1 (10235/10000)).map (fun v => v.comision) = some (9/25)
    ∧ (10235/100 : ℚ) * 1 / 100 = 10235/10000
    ∧ (9/25 : ℚ) ≠ 10235/10000 := by
  refine ⟨?_, by norm_num, by norm_num⟩
  norm_num [ventaBreakdownDias, calcularVenta, pyRound, roundHalfEven]

/-- C1: `registrar_venta_manual` (`modules/operador.py`) is not
all-or-nothing.  With 100 units in the vault at average cost 1 and a
requested sale of 150 units, the call raises (the vault decrement is
rolled back, the day totals are never touched) yet the Sale row inserted
by the earlier, already-committed `execute_update` persists: exactly the
partial state — a Sale without its matching vault decrement — that the
claim forbids. -/
theorem C1_venta_parcial :
    (registrarVentaManual
        { boveda := [{ ciclo_id := 1, cripto_id := 1, cantidad := 100,
                       precio_promedio := 1 }]
          ventas := []
          dias := [{ id := 5, ciclo_id := 1, numero_dia := 1,
                     estado := EstadoDia.abierto, capital_inicial := 100,
                     efectivo_recibido := 0, comisiones_pagadas := 0,
                     ganancia_bruta := 0, ganancia_neta := 0 }] }
        5 1 150 (10235/10000) (35/100)).2 =
      .error "cantidad en bóveda insuficiente"
    ∧ (registrarVentaManual
        { boveda := [{ ciclo_id := 1, cripto_id := 1, cantidad := 100,
                       precio_promedio := 1 }]
          ventas := []
          dias := [{ id := 5, ciclo_id := 1, numero_dia := 1,
                     estado := EstadoDia.abierto, capital_inicial := 100,
                     efectivo_recibido := 0, comisiones_pagadas := 0,
                     ganancia_bruta := 0, ganancia_neta := 0 }] }
        5 1 150 (10235/10000) (35/100)).1 =
      { boveda := [{ ciclo_id := 1, cripto_id := 1, cantidad := 100,
                     precio_promedio := 1 }]
        ventas := [{ dia_id := 5, cripto_id := 1, cantidad := 150,
                     precio_unitario := 10235/10000, costo_total := 150,
                     monto_venta := 15352/100, comision := 54/100,
                     efectivo_recibido := 15299/100, ganancia_bruta := 352/100,
                     ganancia_neta := 299/100 }]
        dias := [{ id := 5, ciclo_id := 1, numero_dia := 1,
                   estado := EstadoDia.abierto, capital_inicial := 100,
                   efectivo_recibido := 0, comisiones_pagadas := 0,
                   ganancia_bruta := 0, ganancia_neta := 0 }] } := by
  constructor <;>
    norm_num [registrarVentaManual, buscarPosicion, esClave, modificarBoveda,
      calcularVenta, pyRound, roundHalfEven, List.find?]

theorem numActivos_append (l1 l2 : List Ciclo) :
    numActivos (l1 ++ l2) = numActivos l1 + numActivos l2 := by
  simp [numActivos, List.filter_append]

theorem numActivos_eq_zero_of_find_none {ciclos : List Ciclo}
    (h : ciclos.find? (fun c => c.estado == EstadoCiclo.activo) = none) :
    numActivos ciclos = 0 := by
  have hall := List.find?_eq_none.mp h
  simp only [numActivos, List.length_eq_zero]
  rw [List.filter_eq_nil_iff]
  intro c hc
  exact hall c hc

/-- C2 (counterexample): the module-level `crear_ciclo`
(`modules/ciclos.py`) performs no active-cycle check: called while one
cycle is `activo` (reachable from the cycle-management menu), it inserts
a second `activo` row, so the operation neither fails nor leaves the
table unchanged, and two cycles are active at once. -/
theorem C2_contraejemplo :
    numActivos [{ id := 1, estado := EstadoCiclo.activo,
                  inversion_inicial := 100, ganancia_total := 0,
                  dias_operados := 0, capital_final := none,
                  roi_total := none }] = 1
    ∧ numActivos (crearCiclo
        [{ id := 1, estado := EstadoCiclo.activo, inversion_inicial := 100,
           ganancia_total := 0, dias_operados := 0, capital_final := none,
           roi_total := none }] [] 2) = 2 := by
  constructor <;> simp [numActivos, crearCiclo, valorPositivo, List.filter]

/-- C2 (amended): the creation path of the API route
(`POST /ciclos/iniciar`) fails with "Ya existe un ciclo activo" and
inserts no row whenever some cycle is `activo`, and on success (only
possible with no active cycle) appends exactly one new `activo` cycle,
leaving exactly one active cycle; the module-level `crear_ciclo` performs
no such check (see the counterexample), so "at most one active cycle" is
not an invariant of all public operations. -/
theorem C2_ruta_unicidad (ciclos : List Ciclo) (b : Boveda)
    (cap : Option ℚ) (nid : ℕ) :
    (0 < numActivos ciclos →
      iniciarNuevoCiclo ciclos b cap nid = .error "Ya existe un ciclo activo")
    ∧ (∀ res, iniciarNuevoCiclo ciclos b cap nid = .ok res →
        numActivos ciclos = 0 ∧ numActivos res = 1
        ∧ ∃ nuevo, res = ciclos ++ [nuevo]
            ∧ nuevo.estado = EstadoCiclo.activo) := by
  cases hf : ciclos.find? (fun c => c.estado == EstadoCiclo.activo) with
  | some c =>
    constructor
    · intro _
      simp [iniciarNuevoCiclo, hf]
    · intro res hres
      simp [iniciarNuevoCiclo, hf] at hres
  | none =>
    have hzero := numActivos_eq_zero_of_find_none hf
    constructor
    · intro hpos
      omega
    · intro res hres
      simp only [iniciarNuevoCiclo, hf, Option.isSome_none, Bool.false_eq_true,
        if_false, Except.ok.injEq] at hres
      refine ⟨hzero, ?_, ?_⟩
      · rw [← hres, numActivos_append, hzero]
        simp [numActivos, List.filter]
      · exact ⟨_, hres.symm, rfl⟩

/-- C2 (witness): the route refuses to create a cycle while cycle 1 is
active. -/
theorem C2_testigo :
    iniciarNuevoCiclo
      [{ id := 1, estado := EstadoCiclo.activo, inversion_inicial := 100,
         ganancia_total := 0, dias_operados := 0, capital_final := none,
         roi_total := none }] [] none 2 =
      .error "Ya existe un ciclo activo" :=
  (C2_ruta_unicidad _ _ _ _).1 (by simp [numActivos, List.filter])

/-- C3: deposits into one vault position maintain the exact
weighted-average invariant — after each prefix of a positive-quantity
deposit sequence the quantity is `Σ qty_i` and the average cost is
`Σ qty_i*cost_i / Σ qty_i` — while a withdrawal (`retirar-capital`
route) of less than the available quantity and the sale decrement both
lower only the quantity and keep `precio_promedio` unchanged. -/
theorem C3_promedio_ponderado (deps : List (ℚ × ℚ))
    (hdeps : ∀ d ∈ deps, 0 < d.1)
    (n : ℕ) (hn : 0 < n) (hlen : n ≤ deps.length)
    (pos : Posicion) (q : ℚ) (hq : 0 < q) (hlt : q < pos.cantidad) :
    posicionTrasDepositos (deps.take n) =
      some ⟨sumaCantidades (deps.take n),
        sumaCostos (deps.take n) / sumaCantidades (deps.take n)⟩
    ∧ retirarCapital pos q =
        .ok (some ⟨pos.cantidad - q, pos.precio_promedio⟩)
    ∧ posicionTrasVenta pos q = ⟨pos.cantidad - q, pos.precio_promedio⟩ := by
  refine ⟨?_, ?_, rfl⟩
  · have hne : deps.take n ≠ [] := by
      have hlen' : (deps.take n).length = n := by
        rw [List.length_take]
        omega
      intro hcon
      rw [hcon] at hlen'
      simp at hlen'
      omega
    exact posicionTrasDepositos_spec (deps.take n) hne
      (fun d hd => hdeps d (List.mem_of_mem_take hd))
  · have h1 : ¬ (pos.cantidad < q) := not_lt.mpr (le_of_lt hlt)
    have h2 : ¬ (pos.cantidad - q ≤ 0) := by linarith
    simp only [retirarCapital, if_neg h1, if_neg h2]

/-- C3 (witness): two deposits (100 units at cost 1, then 50 at cost 2)
give quantity 150 and average cost 200/150 = 4/3; withdrawing 40 of 100
units keeps the average cost. -/
theorem C3_testigo :
    posicionTrasDepositos ([((100:ℚ), (1:ℚ)), (50, 2)].take 2) =
      some ⟨sumaCantidades ([((100:ℚ), (1:ℚ)), (50, 2)].take 2),
        sumaCostos ([((100:ℚ), (1:ℚ)), (50, 2)].take 2) /
          sumaCantidades ([((100:ℚ), (1:ℚ)), (50, 2)].take 2)⟩
    ∧ retirarCapital ⟨100, 1⟩ 40 = .ok (some ⟨(100:ℚ) - 40, 1⟩)
    ∧ posicionTrasVenta ⟨100, 1⟩ 40 = ⟨(100:ℚ) - 40, 1⟩ :=
  C3_promedio_ponderado [(100, 1), (50, 2)]
    (by intro d hd; fin_cases hd <;> norm_num)
    2 (by norm_num) (by norm_num)
    ⟨100, 1⟩ 40 (by norm_num) (by norm_num)

/-- C4: no transfer path of the program moves vault quantities.  The
module-level `transferir_capital` always fails — `db.transaction` does
not exist — so with rows (cycle 1: 100 units of asset 1 at cost 1) and
(cycle 2: 10 units at cost 2) a transfer of 40 units from cycle 1 to
cycle 2 raises and leaves both rows unchanged; the API route
`POST /ciclos/transferir-capital` answers the same 40-unit request with
success but also writes no vault row, only adding `40 * 1` to the
active cycle's `inversion_inicial`.  The claim requires the source
decremented to 60, the destination credited at the source's average
cost, and value conservation — none of which the program ever
performs. -/
theorem C4_transferencia_sin_movimiento :
    transferirCapital
      [{ ciclo_id := 1, cripto_id := 1, cantidad := 100, precio_promedio := 1 },
       { ciclo_id := 2, cripto_id := 1, cantidad := 10, precio_promedio := 2 }]
      1 2 1 40 =
      ([{ ciclo_id := 1, cripto_id := 1, cantidad := 100, precio_promedio := 1 },
        { ciclo_id := 2, cripto_id := 1, cantidad := 10, precio_promedio := 2 }],
       .error "AttributeError: DatabaseManager has no attribute transaction")
    ∧ transferirCapitalACiclo
        [{ id := 1, estado := EstadoCiclo.activo, inversion_inicial := 100, ganancia_total := 0, dias_operados := 0, capital_final := none, roi_total := none }]
        [{ ciclo_id := 1, cripto_id := 1, cantidad := 100, precio_promedio := 1 }]
        1 40 false =
      .ok ([{ id := 1, estado := EstadoCiclo.activo, inversion_inicial := 140, ganancia_total := 0, dias_operados := 0, capital_final := none, roi_total := none }],
           [{ ciclo_id := 1, cripto_id := 1, cantidad := 100, precio_promedio := 1 }])
    ∧ (100 : ℚ) ≠ 100 - 40 := by
  refine ⟨?_, ?_, by norm_num⟩
  · norm_num [transferirCapital, buscarPosicion, esClave, List.find?]
  · norm_num [transferirCapitalACiclo, cicloActivo, buscarPosicion, esClave,
      List.find?]

/-- C6 (counterexample): the API route `POST /ciclos/finalizar` closes
the active cycle without any open-day check: with day 7 of cycle 1 still
`abierto`, the call succeeds and stamps the cycle `cerrado`
(`capital_final = 100 + 10`, `roi = 10`), where the claim requires an
`OpenDayExistsError` failure leaving the cycle unchanged. -/
theorem C6_contraejemplo :
    obtenerDiaActual [{ id := 7, ciclo_id := 1, numero_dia := 1,
                        estado := EstadoDia.abierto, capital_inicial := 100,
                        efectivo_recibido := 0, comisiones_pagadas := 0,
                        ganancia_bruta := 0, ganancia_neta := 0 }] 1 =
      some { id := 7, ciclo_id := 1, numero_dia := 1,
             estado := EstadoDia.abierto, capital_inicial := 100,
             efectivo_recibido := 0, comisiones_pagadas := 0,
             ganancia_bruta := 0, ganancia_neta := 0 }
    ∧ finalizarCicloActual
        [{ id := 1, estado := EstadoCiclo.activo, inversion_inicial := 100,
           ganancia_total := 10, dias_operados := 3, capital_final := none,
           roi_total := none }] =
      .ok [{ id := 1, estado := EstadoCiclo.cerrado, inversion_inicial := 100,
             ganancia_total := 10, dias_operados := 3,
             capital_final := some 110, roi_total := some 10 }] := by
  constructor
  · rfl
  · norm_num [finalizarCicloActual, cicloActivo, List.find?]

/-- C6 (amended): the module-level `cerrar_ciclo` (`modules/ciclos.py`)
does satisfy the claim: it fails (writing nothing) whenever a day of the
cycle is `abierto`, and only with no open day does it stamp the cycle
`cerrado` with `ganancia_total` summed over its closed days,
`capital_final` equal to the cycle's vault value and the ROI, leaving
the other cycles unchanged.  The API finalize route lacks the open-day
check (see the counterexample). -/
theorem C6_cerrar_ciclo_verificacion {ciclos : List Ciclo} {dias : List Dia}
    {b : Boveda} {cid : ℕ} :
    ((∃ d ∈ dias, d.ciclo_id = cid ∧ d.estado = EstadoDia.abierto) →
      cerrarCiclo ciclos dias b cid = none)
    ∧ (∀ ciclo, ciclos.find? (fun c => c.id == cid) = some ciclo →
        (∀ d ∈ dias, ¬(d.ciclo_id = cid ∧ d.estado = EstadoDia.abierto)) →
        (cerrarCiclo ciclos dias b cid).isSome
        ∧ ∀ res, cerrarCiclo ciclos dias b cid = some res →
            (∀ c' ∈ res, c'.id = cid →
              c'.estado = EstadoCiclo.cerrado
              ∧ c'.ganancia_total = ((dias.filter (fun d =>
                  d.ciclo_id == cid && d.estado == EstadoDia.cerrado)).map
                    (fun d => d.ganancia_neta)).sum
              ∧ c'.capital_final = some (valorCiclo b cid)
              ∧ c'.roi_total = some (if 0 < ciclo.inversion_inicial
                  then ((dias.filter (fun d =>
                      d.ciclo_id == cid && d.estado == EstadoDia.cerrado)).map
                        (fun d => d.ganancia_neta)).sum /
                      ciclo.inversion_inicial * 100
                  else 0))
            ∧ (∀ c' ∈ res, c'.id ≠ cid → c' ∈ ciclos)) := by
  constructor
  · rintro ⟨d, hd, hdc, hde⟩
    have hsome : (dias.find? (fun d =>
        d.ciclo_id == cid && d.estado == EstadoDia.abierto)).isSome := by
      rw [List.find?_isSome]
      exact ⟨d, hd, by simp [hdc, hde]⟩
    obtain ⟨d', hd'⟩ := Option.isSome_iff_exists.mp hsome
    unfold cerrarCiclo
    cases hc : ciclos.find? (fun c => c.id == cid) with
    | none => rfl
    | some ciclo => rw [hd']
  · intro ciclo hc hno
    have hdnone : dias.find? (fun d =>
        d.ciclo_id == cid && d.estado == EstadoDia.abierto) = none := by
      rw [List.find?_eq_none]
      intro d hd
      have hnd := hno d hd
      simp only [Bool.and_eq_true, beq_iff_eq, not_and]
      intro h1 h2
      exact hnd ⟨h1, h2⟩
    constructor
    · simp only [cerrarCiclo, hc, hdnone, Option.isSome_some]
    · intro res hres
      simp only [cerrarCiclo, hc, hdnone, Option.some_inj] at hres
      subst hres
      constructor
      · intro c' hc' hid
        obtain ⟨orig, ho, rfl⟩ := List.mem_map.mp hc'
        by_cases hoid : orig.id = cid
        · rw [if_pos (by simp [hoid])]
          exact ⟨rfl, rfl, rfl, rfl⟩
        · rw [if_neg (by simp [hoid])] at hid
          exact absurd hid hoid
      · intro c' hc' hid
        obtain ⟨orig, ho, rfl⟩ := List.mem_map.mp hc'
        by_cases hoid : orig.id = cid
        · rw [if_pos (by simp [hoid])] at hid
          exact absurd hoid hid
        · rw [if_neg (by simp [hoid])]
          exact ho

/-- C6 (witness): closing cycle 1 (investment 100, one closed day with
net profit 10, empty vault) through the module succeeds, stamping the
closed state and statistics. -/
theorem C6_testigo :
    (cerrarCiclo [{ id := 1, estado := EstadoCiclo.activo, inversion_inicial := 100, ganancia_total := 0, dias_operados := 0, capital_final := none, roi_total := none }] [{ id := 7, ciclo_id := 1, numero_dia := 1, estado := EstadoDia.cerrado, capital_inicial := 100, efectivo_recibido := 10, comisiones_pagadas := 1, ganancia_bruta := 12, ganancia_neta := 10 }] [] 1).isSome
    ∧ ∀ res, cerrarCiclo [{ id := 1, estado := EstadoCiclo.activo, inversion_inicial := 100, ganancia_total := 0, dias_operados := 0, capital_final := none, roi_total := none }] [{ id := 7, ciclo_id := 1, numero_dia := 1, estado := EstadoDia.cerrado, capital_inicial := 100, efectivo_recibido := 10, comisiones_pagadas := 1, ganancia_bruta := 12, ganancia_neta := 10 }] [] 1 = some res →
        (∀ c' ∈ res, c'.id = 1 →
          c'.estado = EstadoCiclo.cerrado
          ∧ c'.ganancia_total = ((([{ id := 7, ciclo_id := 1, numero_dia := 1, estado := EstadoDia.cerrado, capital_inicial := 100, efectivo_recibido := 10, comisiones_pagadas := 1, ganancia_bruta := 12, ganancia_neta := 10 }] : List Dia).filter (fun d => d.ciclo_id == 1 && d.estado == EstadoDia.cerrado)).map (fun d => d.ganancia_neta)).sum
          ∧ c'.capital_final = some (valorCiclo [] 1)
          ∧ c'.roi_total = some (if 0 < ({ id := 1, estado := EstadoCiclo.activo, inversion_inicial := 100, ganancia_total := 0, dias_operados := 0, capital_final := none, roi_total := none } : Ciclo).inversion_inicial
              then ((([{ id := 7, ciclo_id := 1, numero_dia := 1, estado := EstadoDia.cerrado, capital_inicial := 100, efectivo_recibido := 10, comisiones_pagadas := 1, ganancia_bruta := 12, ganancia_neta := 10 }] : List Dia).filter (fun d => d.ciclo_id == 1 && d.estado == EstadoDia.cerrado)).map (fun d => d.ganancia_neta)).sum / ({ id := 1, estado := EstadoCiclo.activo, inversion_inicial := 100, ganancia_total := 0, dias_operados := 0, capital_final := none, roi_total := none } : Ciclo).inversion_inicial * 100
              else 0))
        ∧ (∀ c' ∈ res, c'.id ≠ 1 → c' ∈ [{ id := 1, estado := EstadoCiclo.activo, inversion_inicial := 100, ganancia_total := 0, dias_operados := 0, capital_final := none, roi_total := none }]) :=
  C6_cerrar_ciclo_verificacion.2 { id := 1, estado := EstadoCiclo.activo, inversion_inicial := 100, ganancia_total := 0, dias_operados := 0, capital_final := none, roi_total := none } rfl
    (by intro d hd
        simp only [List.mem_singleton] at hd
        subst hd
        rintro ⟨_, hcon⟩
        exact absurd hcon (by simp))

/-- C7 (counterexample): with day 3 of cycle 1 already `abierto`, the
module-level `iniciar_dia` does not fail: it returns the existing open
day's id 3 (a successful result, where the claim requires a
`DayAlreadyOpenError`), leaving the table unchanged. -/
theorem C7_contraejemplo :
    iniciarDia [{ id := 3, ciclo_id := 1, numero_dia := 1,
                  estado := EstadoDia.abierto, capital_inicial := 100,
                  efectivo_recibido := 0, comisiones_pagadas := 0,
                  ganancia_bruta := 0, ganancia_neta := 0 }] [] 1 9 =
      ([{ id := 3, ciclo_id := 1, numero_dia := 1,
          estado := EstadoDia.abierto, capital_inicial := 100,
          efectivo_recibido := 0, comisiones_pagadas := 0,
          ganancia_bruta := 0, ganancia_neta := 0 }], 3) := rfl

/-- C7 (amended): when a day of the cycle is already `abierto`, neither
implementation inserts a new Day row — the API route
(`POST /operaciones/iniciar-dia`) fails with "Ya hay un día abierto",
while the module-level `iniciar_dia` returns the existing open day's id
as a SUCCESS instead of failing. -/
theorem C7_dia_abierto_sin_insercion {ciclos : List Ciclo} {dias : List Dia}
    {b : Boveda} {ci nid : ℕ} {capital : ℚ} :
    (∀ d, obtenerDiaActual dias ci = some d →
      iniciarDia dias b ci nid = (dias, d.id))
    ∧ (∀ ciclo d, cicloActivo ciclos = some ciclo →
        obtenerDiaActual dias ciclo.id = some d →
        iniciarDiaRuta ciclos dias capital nid =
          .error "Ya hay un día abierto") := by
  constructor
  · intro d hd
    simp only [iniciarDia, hd]
  · intro ciclo d hc hd
    simp only [iniciarDiaRuta, hc, hd]

/-- C7 (witness): the amended theorem at a one-day table — the module
returns the open day's id 3 without inserting, and the route fails. -/
theorem C7_testigo :
    iniciarDia [{ id := 3, ciclo_id := 1, numero_dia := 1,
                  estado := EstadoDia.abierto, capital_inicial := 100,
                  efectivo_recibido := 0, comisiones_pagadas := 0,
                  ganancia_bruta := 0, ganancia_neta := 0 }] [] 1 9 =
      ([{ id := 3, ciclo_id := 1, numero_dia := 1,
          estado := EstadoDia.abierto, capital_inicial := 100,
          efectivo_recibido := 0, comisiones_pagadas := 0,
          ganancia_bruta := 0, ganancia_neta := 0 }], 3)
    ∧ iniciarDiaRuta
        [{ id := 1, estado := EstadoCiclo.activo, inversion_inicial := 100,
           ganancia_total := 0, dias_operados := 0, capital_final := none,
           roi_total := none }]
        [{ id := 3, ciclo_id := 1, numero_dia := 1,
           estado := EstadoDia.abierto, capital_inicial := 100,
           efectivo_recibido := 0, comisiones_pagadas := 0,
           ganancia_bruta := 0, ganancia_neta := 0 }] 500 9 =
      .error "Ya hay un día abierto" := by
  constructor
  · exact (@C7_dia_abierto_sin_insercion
      [{ id := 1, estado := EstadoCiclo.activo, inversion_inicial := 100,
         ganancia_total := 0, dias_operados := 0, capital_final := none,
         roi_total := none }]
      [{ id := 3, ciclo_id := 1, numero_dia := 1,
         estado := EstadoDia.abierto, capital_inicial := 100,
         efectivo_recibido := 0, comisiones_pagadas := 0,
         ganancia_bruta := 0, ganancia_neta := 0 }] [] 1 9 500).1
      { id := 3, ciclo_id := 1, numero_dia := 1,
        estado := EstadoDia.abierto, capital_inicial := 100,
        efectivo_recibido := 0, comisiones_pagadas := 0,
        ganancia_bruta := 0, ganancia_neta := 0 } rfl
  · exact (@C7_dia_abierto_sin_insercion
      [{ id := 1, estado := EstadoCiclo.activo, inversion_inicial := 100,
         ganancia_total := 0, dias_operados := 0, capital_final := none,
         roi_total := none }]
      [{ id := 3, ciclo_id := 1, numero_dia := 1,
         estado := EstadoDia.abierto, capital_inicial := 100,
         efectivo_recibido := 0, comisiones_pagadas := 0,
         ganancia_bruta := 0, ganancia_neta := 0 }] [] 1 9 500).2
      { id := 1, estado := EstadoCiclo.activo, inversion_inicial := 100,
        ganancia_total := 0, dias_operados := 0, capital_final := none,
        roi_total := none }
      { id := 3, ciclo_id := 1, numero_dia := 1,
        estado := EstadoDia.abierto, capital_inicial := 100,
        efectivo_recibido := 0, comisiones_pagadas := 0,
        ganancia_bruta := 0, ganancia_neta := 0 } rfl rfl

/-- C10: a successful deposit through `POST /boveda/agregar-capital`
leaves the active cycle's `inversion_inicial` equal to that cycle's
total vault value recomputed from the post-deposit table inside the same
transaction, and this value exceeds the pre-deposit vault value by
exactly `monto_usd` (the deposited quantity is `monto_usd /
precio_unitario` valued at `precio_unitario`). -/
theorem C10_inversion_actualizada {ciclos : List Ciclo} {b : Boveda}
    {cripto : ℕ} {monto precio : ℚ} {nid : ℕ} {c : Ciclo}
    (hu : clavesUnicas b)
    (hact : cicloActivo ciclos = some c)
    (hm : 0 < monto) (hp : 0 < precio)
    (hpos : ∀ e, buscarPosicion b c.id cripto = some e → 0 ≤ e.cantidad) :
    (∀ c' ∈ (agregarCapital ciclos b cripto monto precio nid).1,
        c'.id = c.id →
        c'.inversion_inicial =
          valorCiclo (agregarCapital ciclos b cripto monto precio nid).2 c.id)
    ∧ valorCiclo (agregarCapital ciclos b cripto monto precio nid).2 c.id =
        valorCiclo b c.id + monto := by
  have hden : ∀ e, buscarPosicion b c.id cripto = some e →
      e.cantidad + monto / precio ≠ 0 := by
    intro e he
    have h0 := hpos e he
    have hdp : 0 < monto / precio := div_pos hm hp
    linarith
  have hb1 : (agregarCapital ciclos b cripto monto precio nid).2 =
      depositarEnBoveda b c.id cripto (monto / precio) precio := by
    simp only [agregarCapital, hact]
  have hmapa : (agregarCapital ciclos b cripto monto precio nid).1 =
      ciclos.map (fun cc =>
        if cc.id == c.id then
          { cc with inversion_inicial :=
              valorCiclo (depositarEnBoveda b c.id cripto (monto / precio)
                precio) c.id }
        else cc) := by
    simp only [agregarCapital, hact]
  have hval : valorCiclo (depositarEnBoveda b c.id cripto (monto / precio)
      precio) c.id = valorCiclo b c.id + monto := by
    rw [valorCiclo_depositar hu hden, div_mul_cancel₀ _ (ne_of_gt hp)]
  constructor
  · intro c' hc' hid
    rw [hmapa] at hc'
    obtain ⟨orig, ho, rfl⟩ := List.mem_map.mp hc'
    by_cases hoid : orig.id = c.id
    · rw [if_pos (by simp [hoid])]
      rw [hb1]
    · rw [if_neg (by simp [hoid])] at hid
      exact absurd hid hoid
  · rw [hb1, hval]

/-- C10 (witness): depositing 100 USD at unit price 2 (50 units) into
cycle 1 whose vault already holds 50 units of asset 2 at cost 1 leaves
`inversion_inicial` equal to the recomputed cycle vault value, which is
the old value plus 100. -/
theorem C10_testigo :
    (∀ c' ∈ (agregarCapital
        [{ id := 1, estado := EstadoCiclo.activo, inversion_inicial := 50, ganancia_total := 0, dias_operados := 0, capital_final := none, roi_total := none }]
        [{ ciclo_id := 1, cripto_id := 2, cantidad := 50, precio_promedio := 1 }]
        2 100 2 9).1,
        c'.id = ({ id := 1, estado := EstadoCiclo.activo, inversion_inicial := 50, ganancia_total := 0, dias_operados := 0, capital_final := none, roi_total := none } : Ciclo).id →
        c'.inversion_inicial =
          valorCiclo (agregarCapital
            [{ id := 1, estado := EstadoCiclo.activo, inversion_inicial := 50, ganancia_total := 0, dias_operados := 0, capital_final := none, roi_total := none }]
            [{ ciclo_id := 1, cripto_id := 2, cantidad := 50, precio_promedio := 1 }]
            2 100 2 9).2
            ({ id := 1, estado := EstadoCiclo.activo, inversion_inicial := 50, ganancia_total := 0, dias_operados := 0, capital_final := none, roi_total := none } : Ciclo).id)
    ∧ valorCiclo (agregarCapital
        [{ id := 1, estado := EstadoCiclo.activo, inversion_inicial := 50, ganancia_total := 0, dias_operados := 0, capital_final := none, roi_total := none }]
        [{ ciclo_id := 1, cripto_id := 2, cantidad := 50, precio_promedio := 1 }]
        2 100 2 9).2
        ({ id := 1, estado := EstadoCiclo.activo, inversion_inicial := 50, ganancia_total := 0, dias_operados := 0, capital_final := none, roi_total := none } : Ciclo).id =
      valorCiclo [{ ciclo_id := 1, cripto_id := 2, cantidad := 50, precio_promedio := 1 }]
        ({ id := 1, estado := EstadoCiclo.activo, inversion_inicial := 50, ganancia_total := 0, dias_operados := 0, capital_final := none, roi_total := none } : Ciclo).id + 100 :=
  @C10_inversion_actualizada
    [{ id := 1, estado := EstadoCiclo.activo, inversion_inicial := 50, ganancia_total := 0, dias_operados := 0, capital_final := none, roi_total := none }]
    [{ ciclo_id := 1, cripto_id := 2, cantidad := 50, precio_promedio := 1 }]
    2 100 2 9
    { id := 1, estado := EstadoCiclo.activo, inversion_inicial := 50, ganancia_total := 0, dias_operados := 0, capital_final := none, roi_total := none }
    (by simp [clavesUnicas])
    rfl
    (by norm_num) (by norm_num)
    (by intro e he
        have hb : buscarPosicion
            [{ ciclo_id := 1, cripto_id := 2, cantidad := 50, precio_promedio := 1 }]
            ({ id := 1, estado := EstadoCiclo.activo, inversion_inicial := 50, ganancia_total := 0, dias_operados := 0, capital_final := none, roi_total := none } : Ciclo).id 2 =
            some { ciclo_id := 1, cripto_id := 2, cantidad := (50:ℚ), precio_promedio := 1 } := rfl
        rw [hb] at he
        injection he with h
        rw [← h]
        norm_num)
